import Mathlib

/-!
Shallow embedding of the bounded-concurrency outbound-request engine in
`src/filebase_api/web/client.py` and `src/filebase_api/web/typed.py`.

Python dictionaries are modelled as insertion-ordered association lists with
unique keys; Python string operations are modelled on Lean `String`; Python
exceptions are modelled as a name together with its `args` tuple of strings.
-/

namespace FilebaseApi

/-- A Python `dict` with string keys and values: an insertion-ordered
association list (real dicts never hold a duplicate key). -/
abbrev Dict := List (String × String)

/-- `d[k]` lookup returning `none` when the key is absent (first match). -/
def dictGet (d : Dict) (k : String) : Option String :=
  match d with
  | [] => none
  | (k', v) :: rest => if k' = k then some v else dictGet rest k

/-- `d[k] = v`: replaces the value in place when the key exists (keeping its
position, as CPython dicts do), otherwise appends the new entry at the end. -/
def dictSet (d : Dict) (k v : String) : Dict :=
  match d with
  | [] => [(k, v)]
  | (k', v') :: rest => if k' = k then (k', v) :: rest else (k', v') :: dictSet rest k v

/-- `d.setdefault(k, v)`: inserts `(k, v)` only when `k` is absent. -/
def dictSetdefault (d : Dict) (k v : String) : Dict :=
  if (dictGet d k).isSome then d else d ++ [(k, v)]

/-- `d1.update(d2)`: applies every entry of `d2` to `d1`, later entries
overriding earlier values on key collision. -/
def dictUpdate (d1 d2 : Dict) : Dict :=
  d2.foldl (fun acc kv => dictSet acc kv.1 kv.2) d1

/-- `client.py` `combine_dictionaries(*args)`: starts from an empty dict and
`update`s it with each non-`None` argument in order. -/
def combine_dictionaries (args : List (Option Dict)) : Dict :=
  args.foldl (fun d inner => match inner with | none => d | some i => dictUpdate d i) []

/-- The regex test `Pattern.match(r"re::^[^:\/]+:\/\/", path)` from
`ClientRequest.__init__`: the string starts with one or more characters that
are neither `:` nor `/`, followed by `://`. -/
def absUrlMatch (s : String) : Bool :=
  let cs := s.toList
  let run := cs.takeWhile (fun c => c != ':' && c != '/')
  !run.isEmpty && ((cs.drop run.length).take 3 == [':', '/', '/'])

/-- Python `str.strip()`: removes leading and trailing whitespace. -/
def pyStrip (s : String) : String :=
  String.mk (((s.toList.dropWhile Char.isWhitespace).reverse.dropWhile
    Char.isWhitespace).reverse)

/-- `Pattern.replace(r"re::^\/", "", s)`: removes a single leading slash. -/
def replaceLeadingSlash (s : String) : String :=
  match s.toList with
  | '/' :: rest => String.mk rest
  | _ => s

/-- A Python exception, reduced to its class name and `args` tuple
(string arguments only; nested errors are referenced through their args). -/
structure PyErr where
  name : String
  args : List String
deriving DecidableEq

/-- `ClientRequestException(text, *err.args)` as built in
`ClientRequest.parse_response`: a new error whose args start with the
response text and continue with the original error's args. -/
def clientRequestExc (text : String) (err : PyErr) : PyErr :=
  { name := "ClientRequestException", args := text :: err.args }

/-- A value flowing through the response pipeline: either a raw `Response`
object (carrying its `.text`) or an already-transformed value. Models the
`isinstance(response, Response)` distinction in `parse_response`. -/
inductive Rsp where
  | response (text : String)
  | value (v : String)
deriving DecidableEq

/-- `response.text if isinstance(response, Response) else response`. -/
def Rsp.textOf : Rsp → String
  | Rsp.response t => t
  | Rsp.value v => v

/-- The request value object from `client.py` (`ClientRequest`), after
construction. `base_url` is `Option` because Python defaults it to `None`. -/
structure ClientRequest where
  path : String
  base_url : Option String
  headers : Dict
  params : Dict
  method : String
  body : Option String
deriving DecidableEq

/-- `ClientRequest.__init__`: when the path itself matches the absolute-url
pattern, it becomes the base url and the stored path is emptied; otherwise the
path is stripped of whitespace and of one leading slash. `headers or {}` and
`params or {}` default the mappings. -/
def ClientRequest.init (path : String) (base_url : Option String)
    (headers params : Option Dict) (method : String) (body : Option String) :
    ClientRequest :=
  if path ≠ "" ∧ absUrlMatch path then
    { path := "", base_url := some path, headers := headers.getD [],
      params := params.getD [], method := method, body := body }
  else
    { path := replaceLeadingSlash (pyStrip path), base_url := base_url,
      headers := headers.getD [], params := params.getD [],
      method := method, body := body }

/-- `ClientRequest.url`: `f"{self.base_url}/{self.path}"` when the path is
non-blank, else the base url alone. A `None` base url renders as the string
`"None"`, as a Python f-string would. -/
def ClientRequest.url (rq : ClientRequest) : String :=
  let base := match rq.base_url with | some b => b | none => "None"
  if pyStrip rq.path ≠ "" then base ++ "/" ++ rq.path else base

/-- `ClientRequest.parse_response(response, err)`: first tries the
per-request transform hook `process_request_response`; a hook failure is
raised only when no transport error is pending (otherwise it is swallowed and
`response` keeps its old value). Then a pending transport error is re-raised
wrapped as `ClientRequestException(response.text, *err.args)`; otherwise the
transformed response is returned. -/
def ClientRequest.parse_response (hook : Rsp → Except PyErr Rsp)
    (response : Rsp) (err : Option PyErr) : Except PyErr Rsp :=
  match hook response, err with
  | Except.error ex, none => Except.error ex
  | Except.error _, some e => Except.error (clientRequestExc response.textOf e)
  | Except.ok r, some e => Except.error (clientRequestExc r.textOf e)
  | Except.ok r, none => Except.ok r

/-- The first half of `Client._request_loop.process_request_rslt`: the
client-level `parse_response` hook is applied to the raw result; when it
raises, `err = ex` replaces whatever error was pending; when it succeeds the
result is rebound and the pending error kept. -/
def clientParseStep (clientParse : Option (Rsp → Except PyErr Rsp))
    (rsp : Rsp) (err : Option PyErr) : Rsp × Option PyErr :=
  match clientParse with
  | none => (rsp, err)
  | some f =>
    match f rsp with
    | Except.ok r => (r, err)
    | Except.error ex => (rsp, some ex)

/-- The full error/result outcome a single completion reports to its group:
the client-level hook step followed by `ClientRequest.parse_response`. -/
def completionOutcome (clientParse : Option (Rsp → Except PyErr Rsp))
    (hook : Rsp → Except PyErr Rsp) (rsp : Rsp) (err : Option PyErr) :
    Except PyErr Rsp :=
  let p := clientParseStep clientParse rsp err
  ClientRequest.parse_response hook p.1 p.2

/-- An event observable on a request group: the `request_complete` emission
carrying the parsed result, an error emission (`emit_error`), or the
`stop_all_streams` call that ends the group's streams. -/
inductive GrpEvent where
  | request_complete (v : Rsp)
  | error_event (e : PyErr)
  | streams_stopped
deriving DecidableEq

/-- `_ClientRequestGrp` state: the ordered member requests (identified by
index), the set of completed requests (`self._completed`, modelled as an
insertion-ordered duplicate-free list), and the trace of emitted events. -/
structure Grp where
  requests : List Nat
  completed : List Nat
  events : List GrpEvent
deriving DecidableEq

/-- Python `set.add`: inserts only when absent. -/
def setAdd (s : List Nat) (x : Nat) : List Nat :=
  if x ∈ s then s else s ++ [x]

/-- `_ClientRequestGrp.__init__(requests)`: fresh group with nothing
completed and no events emitted (the generated id is not modelled). -/
def mkGrp (requests : List Nat) : Grp :=
  { requests := requests, completed := [], events := [] }

/-- `_ClientRequestGrp.complete_request(request, response, err)`: adds the
request to `_completed`, parses the response (emitting `request_complete` on
success and an error event on failure), and finally calls
`stop_all_streams()` when every member is completed. -/
def Grp.complete_request (g : Grp) (hook : Rsp → Except PyErr Rsp) (req : Nat)
    (response : Rsp) (err : Option PyErr) : Grp :=
  let completed := setAdd g.completed req
  let ev := match ClientRequest.parse_response hook response err with
    | Except.ok r => GrpEvent.request_complete r
    | Except.error ex => GrpEvent.error_event ex
  let events := g.events ++ [ev]
  let events :=
    if completed.length = g.requests.length then events ++ [GrpEvent.streams_stopped]
    else events
  { requests := g.requests, completed := completed, events := events }

/-- `Client._request_loop.process_request_rslt`: applies the client-level
`parse_response` hook (a failure replacing the pending error), then feeds the
outcome into the owning group via `complete_request`. (The removal from
`_executing_requests` is modelled by the dispatch-count function below.) -/
def process_request_rslt (clientParse : Option (Rsp → Except PyErr Rsp))
    (hook : Rsp → Except PyErr Rsp) (g : Grp) (req : Nat) (rsp : Rsp)
    (err : Option PyErr) : Grp :=
  let p := clientParseStep clientParse rsp err
  Grp.complete_request g hook req p.1 p.2

/-- Drains a group: the completions arrive in the order given by `order`
(indices into `outcomes`, the per-request transport results `(response,
err)`), each flowing through `process_request_rslt`. -/
def Grp.drainAll (g : Grp) (clientParse : Option (Rsp → Except PyErr Rsp))
    (hook : Rsp → Except PyErr Rsp) (outcomes : List (Rsp × Option PyErr))
    (order : List Nat) : Grp :=
  match order with
  | [] => g
  | i :: rest =>
    match outcomes[i]? with
    | none => Grp.drainAll g clientParse hook outcomes rest
    | some p =>
      Grp.drainAll (process_request_rslt clientParse hook g i p.1 p.2)
        clientParse hook outcomes rest

/-- The errors collected by `Client.stream`'s `handle_error` callback: every
error event, in the order it was emitted. -/
def Grp.streamErrors (g : Grp) : List PyErr :=
  g.events.filterMap (fun ev =>
    match ev with | GrpEvent.error_event e => some e | _ => none)

/-- The values yielded by `Client.stream`: every `request_complete` payload,
in the order it was emitted. -/
def Grp.streamYields (g : Grp) : List Rsp :=
  g.events.filterMap (fun ev =>
    match ev with | GrpEvent.request_complete v => some v | _ => none)

/-- What `Client.stream` raises after the generator is exhausted. -/
inductive StreamRaise where
  | noRaise
  | singleErr (e : PyErr)
  | multiErr (msg : String) (errs : List PyErr)
deriving DecidableEq

/-- The message of `ClientException("Multiple errors while streaming", *errors)`. -/
def multipleErrorsMsg : String := "Multiple errors while streaming"

/-- The tail of `Client.stream`: with `raise_errors` and a non-empty error
list, a lone error is raised unwrapped and several are wrapped in a single
`ClientException` carrying them in recorded order. -/
def streamRaise (raise_errors : Bool) (errors : List PyErr) : StreamRaise :=
  if raise_errors ∧ errors.length > 0 then
    match errors with
    | [e] => StreamRaise.singleErr e
    | _ => StreamRaise.multiErr multipleErrorsMsg errors
  else StreamRaise.noRaise

/-- The argument of `Client.request` / `Client.stream`: a single request or a
collection of requests (identified by index). -/
inductive ReqArg where
  | single (r : Nat)
  | many (rs : List Nat)

/-- `zcommon.collections.is_iterable` on a `ReqArg`: a lone `ClientRequest`
is not iterable, a list is. -/
def is_iterable : ReqArg → Bool
  | ReqArg.single _ => false
  | ReqArg.many _ => true

/-- The shape of `Client.request`'s return value. -/
inductive RequestResult where
  | noneRes
  | singleRes (v : Rsp)
  | listRes (vs : List Rsp)
deriving DecidableEq

/-- `Client.request(requests, ...)`: drains the stream into `rslt`; for a
single (non-iterable) argument returns `None` on an empty list and the first
element otherwise; for a collection returns the list itself. -/
def Client.request (arg : ReqArg) (rslt : List Rsp) : RequestResult :=
  if is_iterable arg = false then
    match rslt with
    | [] => RequestResult.noneRes
    | v :: _ => RequestResult.singleRes v
  else RequestResult.listRes rslt

/-- The dispatcher (`Client`) configuration used by `invoke_request`. -/
structure Client where
  base_url : String
  headers : Dict
  params : Dict
  max_parallel_requests : Nat
deriving DecidableEq

/-- Python `x or y` on an optional string: `y` when `x` is `None` or empty. -/
def pyOrStr (x : Option String) (y : Option String) : Option String :=
  match x with
  | none => y
  | some s => if s = "" then y else some s

/-- `Client._request_loop.invoke_request`, mutation part: rebinds the
request's `base_url` (`request.base_url or self.base_url`), `params` and
`headers` (defaults merged first, then the request's own entries) in place;
the function returns the state of the mutated request object. -/
def Client.invoke_request (c : Client) (rq : ClientRequest) : ClientRequest :=
  { rq with
    base_url := pyOrStr rq.base_url (some c.base_url),
    params := combine_dictionaries [some c.params, some rq.params],
    headers := combine_dictionaries [some c.headers, some rq.headers] }

/-- The admission-control core of `Client._request_loop`: each iteration pops
one ready request, `invoke_request` adds it to `_executing_requests`, and only
when the set's size exceeds `max_parallel_requests` does the loop block in
`Task.wait_for_one` until one in-flight task finishes (its callback having
removed it from the set). `ds` gives, per admission, the number of additional
asynchronous completions processed before the next admission; the returned
list is the size of `_executing_requests` observed immediately after each
`invoke_request`. -/
def request_loop_counts (cap : Nat) (ds : List Nat) (executing : Nat) : List Nat :=
  match ds with
  | [] => []
  | d :: rest =>
    let e := executing + 1
    let afterWait := if cap < e then e - 1 else e
    e :: request_loop_counts cap rest (afterWait - d)

/-- The caller-visible contents of the caller-supplied `headers` and `params`
mappings after `ClientRequest.__init__`: the constructor stores the mappings
without performing any dict operation on them, so they are unchanged. -/
def clientRequestCallerDictsAfter (headers params : Option Dict) :
    Option Dict × Option Dict :=
  (headers, params)

/-- `ClientRestRequest.__init__` (`typed.py`): `headers = headers or {}`
followed by `headers.setdefault("Accept", "application/json")`. When the
caller passed a non-empty dict, `or` keeps the caller's own object and
`setdefault` mutates it; an empty dict is falsy, so a fresh dict is used and
the caller's object is untouched. Returns the constructed request together
with the caller-visible final contents of the two supplied mappings. -/
def ClientRestRequest.init (path : String) (base_url : Option String)
    (headers params : Option Dict) (method : String) (body : Option String) :
    ClientRequest × Option Dict × Option Dict :=
  let h0 := headers.getD []
  let h := dictSetdefault h0 "Accept" "application/json"
  let callerHeaders := match headers with
    | none => none
    | some h0 => if h0.isEmpty then some h0 else some (dictSetdefault h0 "Accept" "application/json")
  (ClientRequest.init path base_url (some h) params method body, callerHeaders, params)

/-- The default per-request transform hook: the base-class
`ClientRequest.process_request_response` returns the response unchanged. -/
def process_request_response_default : Rsp → Except PyErr Rsp :=
  fun r => Except.ok r

/-! ### Dictionary lemmas -/

lemma dictGet_eq_none_of_not_mem (d : Dict) (k : String)
    (h : k ∉ d.map Prod.fst) : dictGet d k = none := by
  induction d with
  | nil => rfl
  | cons kv rest ih =>
    obtain ⟨k0, v0⟩ := kv
    simp only [List.map_cons, List.mem_cons, not_or] at h
    unfold dictGet
    have hne : ¬ (k0 = k) := fun e => h.1 (Eq.symm e)
    rw [if_neg hne]
    exact ih h.2

lemma dictGet_dictSet (d : Dict) (k v k' : String) :
    dictGet (dictSet d k v) k' = if k = k' then some v else dictGet d k' := by
  induction d with
  | nil => simp [dictSet, dictGet]
  | cons kv rest ih =>
    obtain ⟨k0, v0⟩ := kv
    by_cases h0 : k0 = k
    · subst h0
      by_cases h1 : k0 = k'
      · subst h1; simp [dictSet, dictGet]
      · simp [dictSet, dictGet, h1]
    · by_cases h1 : k0 = k'
      · subst h1
        have hkk : ¬ k = k0 := fun e => h0 e.symm
        simp [dictSet, dictGet, h0, hkk]
      · simp [dictSet, dictGet, h0, h1, ih]

lemma dictUpdate_nil (d : Dict) : dictUpdate d [] = d := rfl

lemma dictUpdate_cons (d1 : Dict) (k0 v0 : String) (rest : Dict) :
    dictUpdate d1 ((k0, v0) :: rest) = dictUpdate (dictSet d1 k0 v0) rest := rfl

lemma dictGet_dictUpdate (d1 d2 : Dict) (k : String)
    (h : (d2.map Prod.fst).Nodup) :
    dictGet (dictUpdate d1 d2) k =
      match dictGet d2 k with
      | some v => some v
      | none => dictGet d1 k := by
  induction d2 generalizing d1 with
  | nil => simp [dictUpdate_nil, dictGet]
  | cons kv rest ih =>
    obtain ⟨k0, v0⟩ := kv
    simp only [List.map_cons, List.nodup_cons] at h
    rw [dictUpdate_cons, ih _ h.2]
    by_cases hk : k0 = k
    · subst hk
      have hnone : dictGet rest k0 = none :=
        dictGet_eq_none_of_not_mem rest k0 h.1
      simp [dictGet, hnone, dictGet_dictSet]
    · have hk' : ¬ (k = k0) := fun e => hk (Eq.symm e)
      simp [dictGet, hk, dictGet_dictSet, hk']

lemma combine_dictionaries_two (d1 d2 : Dict) :
    combine_dictionaries [some d1, some d2] = dictUpdate (dictUpdate [] d1) d2 := rfl

lemma dictGet_combine_two (d1 d2 : Dict) (k : String)
    (h1 : (d1.map Prod.fst).Nodup) (h2 : (d2.map Prod.fst).Nodup) :
    dictGet (combine_dictionaries [some d1, some d2]) k =
      match dictGet d2 k with
      | some v => some v
      | none => dictGet d1 k := by
  rw [combine_dictionaries_two, dictGet_dictUpdate _ _ _ h2,
    dictGet_dictUpdate _ _ _ h1]
  cases dictGet d2 k <;> cases dictGet d1 k <;> simp [dictGet]

/-! ### Claim C1: concurrency cap -/

/-- Claim C1, counterexample: with `max_parallel_requests = 1`, two queued
requests and no completion arriving between the admissions, the size of
`_executing_requests` observed right after the second `invoke_request` is 2,
strictly above the cap — the loop admits first and only then checks the
bound, so the in-flight set is not capped at `max_parallel_requests`. -/
theorem claim_C1_counterexample :
    ¬ (∀ c ∈ request_loop_counts 1 [0, 0] 0, c ≤ 1) := by decide

/-- Claim C1, amended: starting from at most `cap` requests in flight, every
size of `_executing_requests` observed right after an admission is at most
`cap + 1`: the loop overshoots the cap by exactly one admission and then
blocks in `Task.wait_for_one` until a completion brings the count back below
the cap before admitting again. -/
theorem claim_C1 (cap executing : Nat) (ds : List Nat) (h : executing ≤ cap) :
    ∀ c ∈ request_loop_counts cap ds executing, c ≤ cap + 1 := by
  induction ds generalizing executing with
  | nil =>
    intro c hc
    simp [request_loop_counts] at hc
  | cons d rest ih =>
    intro c hc
    simp only [request_loop_counts, List.mem_cons] at hc
    rcases hc with rfl | hc
    · omega
    · have harg : ((if cap < executing + 1 then executing + 1 - 1
          else executing + 1) - d) ≤ cap := by
        by_cases hcap : cap < executing + 1
        · simp only [if_pos hcap]; omega
        · simp only [if_neg hcap]; omega
      exact ih _ harg c hc

/-- Witness for the amended claim C1 at cap 2 and two admissions. -/
theorem claim_C1_witness :
    (0 : Nat) ≤ 2 ∧ (2 ∈ request_loop_counts 2 [0, 0] 0 ∧ 2 ≤ 2 + 1) :=
  ⟨by decide, by decide, claim_C1 2 0 [0, 0] (by decide) 2 (by decide)⟩

/-! ### Claim C4: idempotence of complete_request -/

/-- First completion of the only member of a one-request group. -/
def grpC4a : Grp :=
  Grp.complete_request (mkGrp [0]) process_request_response_default 0
    (Rsp.response "a") none

/-- A duplicate completion of the same request. -/
def grpC4b : Grp :=
  Grp.complete_request grpC4a process_request_response_default 0
    (Rsp.response "a") none

/-- Claim C4, counterexample: completing the same request a second time is
not a no-op — the group re-emits the `request_complete` event (and calls
`stop_all_streams` again), so the emitted-event trace after the second call
differs from the trace after the first call. -/
theorem claim_C4_counterexample : grpC4b.events ≠ grpC4a.events := by decide

/-- Claim C4, amended: a second `complete_request` for an already-completed
request leaves the `_completed` set unchanged (the `set.add` is idempotent),
but it re-parses the response and re-emits a completion or error event, so
the emitted-event trace strictly grows — the call is not a no-op. -/
theorem claim_C4 (g : Grp) (hook : Rsp → Except PyErr Rsp) (req : Nat)
    (rsp : Rsp) (err : Option PyErr) (h : req ∈ g.completed) :
    (Grp.complete_request g hook req rsp err).completed = g.completed ∧
    g.events.length < (Grp.complete_request g hook req rsp err).events.length := by
  have hset : setAdd g.completed req = g.completed := by simp [setAdd, h]
  constructor
  · simp [Grp.complete_request, hset]
  · simp only [Grp.complete_request, hset]
    by_cases hc : g.completed.length = g.requests.length <;>
      simp [hc, List.length_append]

/-- Witness for the amended claim C4: the duplicate completion of
`grpC4a`'s request keeps the completed set and grows the event trace. -/
theorem claim_C4_witness :
    0 ∈ grpC4a.completed ∧
    ((Grp.complete_request grpC4a process_request_response_default 0
        (Rsp.response "a") none).completed = grpC4a.completed ∧
      grpC4a.events.length < (Grp.complete_request grpC4a
        process_request_response_default 0 (Rsp.response "a") none).events.length) :=
  ⟨by decide, claim_C4 grpC4a process_request_response_default 0
    (Rsp.response "a") none (by decide)⟩

/-! ### Claims C2, C5, C7: stream drain, error order, raise policy -/

/-- The error (if any) a single completion contributes to the stream's
collected error list. -/
def completionError (clientParse : Option (Rsp → Except PyErr Rsp))
    (hook : Rsp → Except PyErr Rsp) (p : Rsp × Option PyErr) : Option PyErr :=
  match completionOutcome clientParse hook p.1 p.2 with
  | Except.error e => some e
  | Except.ok _ => none

/-- The value (if any) a single completion contributes to the stream's
yielded results. -/
def completionYield (clientParse : Option (Rsp → Except PyErr Rsp))
    (hook : Rsp → Except PyErr Rsp) (p : Rsp × Option PyErr) : Option Rsp :=
  match completionOutcome clientParse hook p.1 p.2 with
  | Except.ok r => some r
  | Except.error _ => none

lemma streamErrors_process_request_rslt (cp : Option (Rsp → Except PyErr Rsp))
    (hook : Rsp → Except PyErr Rsp) (g : Grp) (i : Nat) (rsp : Rsp)
    (err : Option PyErr) :
    (process_request_rslt cp hook g i rsp err).streamErrors
      = g.streamErrors ++ (completionError cp hook (rsp, err)).toList := by
  unfold process_request_rslt Grp.complete_request Grp.streamErrors
    completionError completionOutcome
  by_cases hc : (setAdd g.completed i).length = g.requests.length <;>
    cases hpr : ClientRequest.parse_response hook (clientParseStep cp rsp err).1
      (clientParseStep cp rsp err).2 <;>
    simp [hc, hpr, List.filterMap_append]

lemma streamYields_process_request_rslt (cp : Option (Rsp → Except PyErr Rsp))
    (hook : Rsp → Except PyErr Rsp) (g : Grp) (i : Nat) (rsp : Rsp)
    (err : Option PyErr) :
    (process_request_rslt cp hook g i rsp err).streamYields
      = g.streamYields ++ (completionYield cp hook (rsp, err)).toList := by
  unfold process_request_rslt Grp.complete_request Grp.streamYields
    completionYield completionOutcome
  by_cases hc : (setAdd g.completed i).length = g.requests.length <;>
    cases hpr : ClientRequest.parse_response hook (clientParseStep cp rsp err).1
      (clientParseStep cp rsp err).2 <;>
    simp [hc, hpr, List.filterMap_append]

lemma streamErrors_drainAll (cp : Option (Rsp → Except PyErr Rsp))
    (hook : Rsp → Except PyErr Rsp) (outcomes : List (Rsp × Option PyErr))
    (order : List Nat) : ∀ g : Grp,
    (Grp.drainAll g cp hook outcomes order).streamErrors
      = g.streamErrors
          ++ order.filterMap (fun i => outcomes[i]?.bind (completionError cp hook)) := by
  induction order with
  | nil => intro g; simp [Grp.drainAll]
  | cons i rest ih =>
    intro g
    unfold Grp.drainAll
    cases ho : outcomes[i]? with
    | none => simp [ho, ih, List.filterMap_cons]
    | some p =>
      obtain ⟨rsp, err⟩ := p
      cases hce : completionError cp hook (rsp, err) <;>
        simp [ho, ih, streamErrors_process_request_rslt, hce, List.filterMap_cons]

lemma streamYields_drainAll (cp : Option (Rsp → Except PyErr Rsp))
    (hook : Rsp → Except PyErr Rsp) (outcomes : List (Rsp × Option PyErr))
    (order : List Nat) : ∀ g : Grp,
    (Grp.drainAll g cp hook outcomes order).streamYields
      = g.streamYields
          ++ order.filterMap (fun i => outcomes[i]?.bind (completionYield cp hook)) := by
  induction order with
  | nil => intro g; simp [Grp.drainAll]
  | cons i rest ih =>
    intro g
    unfold Grp.drainAll
    cases ho : outcomes[i]? with
    | none => simp [ho, ih, List.filterMap_cons]
    | some p =>
      obtain ⟨rsp, err⟩ := p
      cases hce : completionYield cp hook (rsp, err) <;>
        simp [ho, ih, streamYields_process_request_rslt, hce, List.filterMap_cons]

/-- Transport error of the first submitted request of the C2 scenario. -/
def errC2a : PyErr := { name := "TransportError", args := ["err1"] }

/-- Transport error of the third submitted request of the C2 scenario. -/
def errC2b : PyErr := { name := "TransportError", args := ["err3"] }

/-- The C2 scenario's transport results: submitted requests 0 and 2 fail,
request 1 succeeds. -/
def outcomesC2 : List (Rsp × Option PyErr) :=
  [(Rsp.response "r0", some errC2a), (Rsp.response "r1", none),
   (Rsp.response "r2", some errC2b)]

/-- The C2 group of three requests drained with completions arriving in the
reverse of submission order. -/
def drainedC2 : Grp :=
  Grp.drainAll (mkGrp [0, 1, 2]) none process_request_response_default
    outcomesC2 [2, 1, 0]

/-- Claim C2, counterexample: with submissions `[0, 1, 2]`, failures on
requests 0 and 2, and completions arriving in order `[2, 1, 0]`, the error
list the stream collects holds request 2's error before request 0's — the
completion-arrival order, not the submission order claimed. -/
theorem claim_C2_counterexample :
    drainedC2.streamErrors
        = [clientRequestExc "r2" errC2b, clientRequestExc "r0" errC2a] ∧
    drainedC2.streamErrors
        ≠ [clientRequestExc "r0" errC2a, clientRequestExc "r2" errC2b] := by
  constructor
  · decide
  · decide

/-- Claim C2, amended: the errors collected by `Client.stream` (and hence the
errors wrapped into the combined error) are ordered by the order in which the
completions arrived, each completion contributing its error (if any) at the
moment it is processed — not by the requests' submission order. -/
theorem claim_C2 (cp : Option (Rsp → Except PyErr Rsp))
    (hook : Rsp → Except PyErr Rsp) (outcomes : List (Rsp × Option PyErr))
    (order : List Nat) (reqs : List Nat) :
    (Grp.drainAll (mkGrp reqs) cp hook outcomes order).streamErrors
      = order.filterMap (fun i => outcomes[i]?.bind (completionError cp hook)) := by
  rw [streamErrors_drainAll]
  simp [mkGrp, Grp.streamErrors]

/-- Claim C5: after the stream is drained with `raise_errors = true`, nothing
is raised when no error was collected, a lone collected error is raised
unwrapped, and two or more collected errors are raised as one
`ClientException` wrapping them in their recorded order. -/
theorem claim_C5 (cp : Option (Rsp → Except PyErr Rsp))
    (hook : Rsp → Except PyErr Rsp) (outcomes : List (Rsp × Option PyErr))
    (order : List Nat) (reqs : List Nat) :
    ∀ errs : List PyErr,
      errs = (Grp.drainAll (mkGrp reqs) cp hook outcomes order).streamErrors →
      (errs = [] → streamRaise true errs = StreamRaise.noRaise) ∧
      (∀ e, errs = [e] → streamRaise true errs = StreamRaise.singleErr e) ∧
      (2 ≤ errs.length →
        streamRaise true errs = StreamRaise.multiErr multipleErrorsMsg errs) := by
  intro errs _
  refine ⟨?_, ?_, ?_⟩
  · rintro rfl; rfl
  · rintro e rfl; rfl
  · intro h2
    match errs, h2 with
    | a :: b :: t, _ => rfl

/-- Witness for claim C5 on the drained C2 scenario, whose two collected
errors are wrapped into the multi-error `ClientException`. -/
theorem claim_C5_witness :
    drainedC2.streamErrors = drainedC2.streamErrors ∧
    2 ≤ drainedC2.streamErrors.length ∧
    streamRaise true drainedC2.streamErrors
      = StreamRaise.multiErr multipleErrorsMsg drainedC2.streamErrors :=
  ⟨rfl, by decide,
    (claim_C5 none process_request_response_default outcomesC2 [2, 1, 0]
      [0, 1, 2] drainedC2.streamErrors rfl).2.2 (by decide)⟩

/-- Claim C7: `Client.request` on a single (non-iterable) request returns the
lone result unwrapped — `None` when the drained stream produced nothing —
while on a collection it returns the list of results, which is the stream's
yield list in completion-arrival order. -/
theorem claim_C7 (r : Nat) (rs : List Nat)
    (cp : Option (Rsp → Except PyErr Rsp)) (hook : Rsp → Except PyErr Rsp)
    (outcomes : List (Rsp × Option PyErr)) (order : List Nat) (reqs : List Nat) :
    (Client.request (ReqArg.single r) [] = RequestResult.noneRes) ∧
    (∀ v vs, Client.request (ReqArg.single r) (v :: vs) = RequestResult.singleRes v) ∧
    (Client.request (ReqArg.many rs)
        ((Grp.drainAll (mkGrp reqs) cp hook outcomes order).streamYields)
      = RequestResult.listRes
          (order.filterMap (fun i => outcomes[i]?.bind (completionYield cp hook)))) := by
  refine ⟨rfl, fun v vs => rfl, ?_⟩
  have hy : (Grp.drainAll (mkGrp reqs) cp hook outcomes order).streamYields
      = order.filterMap (fun i => outcomes[i]?.bind (completionYield cp hook)) := by
    rw [streamYields_drainAll]
    simp [mkGrp, Grp.streamYields]
  rw [hy]
  rfl

/-! ### Claim C3: transform-failure precedence -/

/-- The transport error of the C3 scenario. -/
def errC3t : PyErr := { name := "TransportError", args := ["boom"] }

/-- The failure raised by the client-level `parse_response` hook in the C3
scenario. -/
def errC3p : PyErr := { name := "ParseError", args := ["badjson"] }

/-- A client-level `parse_response` hook that always raises `errC3p`. -/
def parseFailC3 : Rsp → Except PyErr Rsp := fun _ => Except.error errC3p

/-- Claim C3, counterexample: when the transport call fails with `errC3t` and
the client-level `parse_response` hook also raises (`errC3p`), the error
reported to the group derives from the parse failure, not from the original
transport error — `err = ex` in `process_request_rslt` overwrites the
pending transport error before `complete_request` runs. -/
theorem claim_C3_counterexample :
    completionOutcome (some parseFailC3) process_request_response_default
        (Rsp.response "body") (some errC3t)
      = Except.error (clientRequestExc "body" errC3p) ∧
    completionOutcome (some parseFailC3) process_request_response_default
        (Rsp.response "body") (some errC3t)
      ≠ Except.error (clientRequestExc "body" errC3t) := by
  constructor
  · rfl
  · intro h
    simp [completionOutcome, clientParseStep, parseFailC3,
      process_request_response_default, ClientRequest.parse_response,
      clientRequestExc, errC3p, errC3t] at h

/-- Claim C3, amended: for the per-request `process_request_response` hook
the original transport error takes precedence — a hook failure while a
transport error is pending is dropped, and the group receives the wrapped
transport error; a hook failure with no pending error becomes the request's
error. For the client-level `parse_response` hook, however, a failure
replaces the pending transport error, and the group receives the wrapped
parse failure instead. -/
theorem claim_C3 (hook f : Rsp → Except PyErr Rsp) (rsp r : Rsp)
    (e tf pf : PyErr) :
    (hook rsp = Except.error tf →
      ClientRequest.parse_response hook rsp (some e)
        = Except.error (clientRequestExc rsp.textOf e)) ∧
    (hook rsp = Except.error tf →
      ClientRequest.parse_response hook rsp none = Except.error tf) ∧
    (hook rsp = Except.ok r →
      ClientRequest.parse_response hook rsp (some e)
        = Except.error (clientRequestExc r.textOf e)) ∧
    (hook rsp = Except.ok r → f rsp = Except.error pf →
      completionOutcome (some f) hook rsp (some e)
        = Except.error (clientRequestExc r.textOf pf)) := by
  refine ⟨?_, ?_, ?_, ?_⟩
  · intro h; simp [ClientRequest.parse_response, h]
  · intro h; simp [ClientRequest.parse_response, h]
  · intro h; simp [ClientRequest.parse_response, h]
  · intro h hf
    simp [completionOutcome, clientParseStep, hf,
      ClientRequest.parse_response, h]

/-- Witness for the amended claim C3, exercising the client-level-hook
conjunct on the C3 scenario. -/
theorem claim_C3_witness :
    process_request_response_default (Rsp.response "body")
        = Except.ok (Rsp.response "body") ∧
    parseFailC3 (Rsp.response "body") = Except.error errC3p ∧
    completionOutcome (some parseFailC3) process_request_response_default
        (Rsp.response "body") (some errC3t)
      = Except.error (clientRequestExc (Rsp.response "body").textOf errC3p) :=
  ⟨rfl, rfl,
    (claim_C3 process_request_response_default parseFailC3
      (Rsp.response "body") (Rsp.response "body") errC3t errC3t errC3p).2.2.2
      rfl rfl⟩

/-! ### Claim C6: target-url resolution -/

lemma clientRequest_init_abs (path : String) (b : Option String)
    (hdr prm : Option Dict) (m : String) (body : Option String)
    (h1 : path ≠ "") (h2 : absUrlMatch path = true) :
    ClientRequest.init path b hdr prm m body =
      { path := "", base_url := some path, headers := hdr.getD [],
        params := prm.getD [], method := m, body := body } := by
  unfold ClientRequest.init
  rw [if_pos ⟨h1, h2⟩]

lemma clientRequest_init_not_abs (path : String) (b : Option String)
    (hdr prm : Option Dict) (m : String) (body : Option String)
    (h : absUrlMatch path = false) :
    ClientRequest.init path b hdr prm m body =
      { path := replaceLeadingSlash (pyStrip path), base_url := b,
        headers := hdr.getD [], params := prm.getD [],
        method := m, body := body } := by
  have hne : ¬ (path ≠ "" ∧ absUrlMatch path) := by
    intro hcon
    rw [h] at hcon
    exact Bool.noConfusion hcon.2
  unfold ClientRequest.init
  rw [if_neg hne]

lemma url_invoke_of_abs (c : Client) (rq : ClientRequest) (u : String)
    (hb : rq.base_url = some u) (hu : u ≠ "") (hp : pyStrip rq.path = "") :
    ClientRequest.url (c.invoke_request rq) = u := by
  unfold Client.invoke_request ClientRequest.url pyOrStr
  rw [hb]
  simp [hu, hp]

/-- The example dispatcher of claim C6. -/
def clientC6 : Client :=
  { base_url := "https://api.example.com", headers := [], params := [],
    max_parallel_requests := 10 }

/-- Claim C6: against a client with base url `https://api.example.com`, a
request built with path `/v1/items` resolves to
`https://api.example.com/v1/items`, while a request whose path is itself an
absolute url keeps that url and ignores every client base url; the
full-url-versus-base+path decision is taken in the constructor, solely from
the absolute-url pattern match on the given path. -/
theorem claim_C6 :
    (ClientRequest.url (clientC6.invoke_request
        (ClientRequest.init "/v1/items" none none none "GET" none))
      = "https://api.example.com/v1/items") ∧
    (∀ (b : String) (cp ch : Dict) (n : Nat) (hdr prm : Option Dict)
        (m : String) (body : Option String),
      ClientRequest.url (Client.invoke_request ⟨b, cp, ch, n⟩
          (ClientRequest.init "https://other.example.com/x" none hdr prm m body))
        = "https://other.example.com/x") ∧
    (∀ (path : String) (b : Option String) (hdr prm : Option Dict)
        (m : String) (body : Option String),
      path ≠ "" → absUrlMatch path = true →
      (ClientRequest.init path b hdr prm m body).base_url = some path ∧
      (ClientRequest.init path b hdr prm m body).path = "") ∧
    (∀ (path : String) (b : Option String) (hdr prm : Option Dict)
        (m : String) (body : Option String),
      absUrlMatch path = false →
      (ClientRequest.init path b hdr prm m body).base_url = b ∧
      (ClientRequest.init path b hdr prm m body).path
        = replaceLeadingSlash (pyStrip path)) := by
  refine ⟨?_, ?_, ?_, ?_⟩
  · decide
  · intro b cp ch n hdr prm m body
    rw [clientRequest_init_abs _ _ _ _ _ _ (by decide) (by decide)]
    exact url_invoke_of_abs _ _ _ rfl (by decide) rfl
  · intro path b hdr prm m body h1 h2
    rw [clientRequest_init_abs _ _ _ _ _ _ h1 h2]
    exact ⟨rfl, rfl⟩
  · intro path b hdr prm m body h
    rw [clientRequest_init_not_abs _ _ _ _ _ _ h]
    exact ⟨rfl, rfl⟩

/-- Witness for claim C6: the absolute-path request of the claim takes the
full-url branch at construction. -/
theorem claim_C6_witness :
    ("https://other.example.com/x" : String) ≠ "" ∧
    absUrlMatch "https://other.example.com/x" = true ∧
    ((ClientRequest.init "https://other.example.com/x" none none none "GET"
        none).base_url = some "https://other.example.com/x" ∧
      (ClientRequest.init "https://other.example.com/x" none none none "GET"
        none).path = "") :=
  ⟨by decide, by decide,
    claim_C6.2.2.1 "https://other.example.com/x" none none none "GET" none
      (by decide) (by decide)⟩

/-! ### Claim C8: caller-mapping mutation on construction -/

/-- Claim C8, counterexample: constructing a `ClientRestRequest` with the
caller's non-empty headers mapping `[("X", "1")]` mutates that mapping —
`headers.setdefault("Accept", "application/json")` runs on the caller's own
dict, which afterwards holds an entry it did not hold before. -/
theorem claim_C8_counterexample :
    (ClientRestRequest.init "items" none (some [("X", "1")]) none "GET"
      none).2.1 ≠ some [("X", "1")] := by decide

/-- Claim C8, amended: constructing a plain `ClientRequest` stores the
caller's mappings unchanged (no dict operation is performed on them), and
`ClientRestRequest` never mutates the caller's params; but when the caller
supplies a non-empty headers mapping lacking the key `"Accept"`,
`ClientRestRequest.__init__` appends `("Accept", "application/json")` to the
caller's own mapping. A headers mapping already holding `"Accept"` (or an
empty one, which `or {}` replaces by a fresh dict) is left unchanged. -/
theorem claim_C8 (path : String) (b : Option String) (h p : Dict)
    (prm : Option Dict) (m : String) (body : Option String) :
    ((ClientRequest.init path b (some h) (some p) m body).headers = h ∧
      (ClientRequest.init path b (some h) (some p) m body).params = p) ∧
    ((ClientRestRequest.init path b (some h) prm m body).2.2 = prm) ∧
    (h.isEmpty = false → dictGet h "Accept" = none →
      (ClientRestRequest.init path b (some h) prm m body).2.1
        = some (h ++ [("Accept", "application/json")])) ∧
    ((dictGet h "Accept").isSome →
      (ClientRestRequest.init path b (some h) prm m body).2.1 = some h) := by
  refine ⟨⟨?_, ?_⟩, ?_, ?_, ?_⟩
  · unfold ClientRequest.init
    split <;> rfl
  · unfold ClientRequest.init
    split <;> rfl
  · rfl
  · intro he ha
    simp [ClientRestRequest.init, he, ha, dictSetdefault]
  · intro ha
    by_cases he : h.isEmpty <;>
      simp [ClientRestRequest.init, he, ha, dictSetdefault]

/-- Witness for the amended claim C8 on the headers mapping `[("X", "1")]`. -/
theorem claim_C8_witness :
    ([("X", "1")] : Dict).isEmpty = false ∧
    dictGet [("X", "1")] "Accept" = none ∧
    (ClientRestRequest.init "items" none (some [("X", "1")]) none "GET"
        none).2.1
      = some ([("X", "1")] ++ [("Accept", "application/json")]) :=
  ⟨by decide, by decide,
    (claim_C8 "items" none [("X", "1")] [] none "GET" none).2.2.1
      (by decide) (by decide)⟩

/-! ### Claim C9: default/request mapping merge -/

/-- Claim C9: the headers and params an admitted request executes with are
the merge of the client's defaults with the request's own mapping — built by
`combine_dictionaries(self..., request...)` — where a key present in both
takes the per-request value and a key present in only one is kept. -/
theorem claim_C9 (c : Client) (rq : ClientRequest) (k : String)
    (hcp : (c.params.map Prod.fst).Nodup) (hrp : (rq.params.map Prod.fst).Nodup)
    (hch : (c.headers.map Prod.fst).Nodup)
    (hrh : (rq.headers.map Prod.fst).Nodup) :
    ((c.invoke_request rq).params
        = combine_dictionaries [some c.params, some rq.params]) ∧
    ((c.invoke_request rq).headers
        = combine_dictionaries [some c.headers, some rq.headers]) ∧
    (∀ v, dictGet rq.params k = some v →
      dictGet (c.invoke_request rq).params k = some v) ∧
    (dictGet rq.params k = none →
      dictGet (c.invoke_request rq).params k = dictGet c.params k) ∧
    (∀ v, dictGet rq.headers k = some v →
      dictGet (c.invoke_request rq).headers k = some v) ∧
    (dictGet rq.headers k = none →
      dictGet (c.invoke_request rq).headers k = dictGet c.headers k) := by
  refine ⟨rfl, rfl, ?_, ?_, ?_, ?_⟩
  · intro v hv
    show dictGet (combine_dictionaries [some c.params, some rq.params]) k = some v
    rw [dictGet_combine_two _ _ _ hcp hrp, hv]
  · intro hv
    show dictGet (combine_dictionaries [some c.params, some rq.params]) k
      = dictGet c.params k
    rw [dictGet_combine_two _ _ _ hcp hrp, hv]
  · intro v hv
    show dictGet (combine_dictionaries [some c.headers, some rq.headers]) k = some v
    rw [dictGet_combine_two _ _ _ hch hrh, hv]
  · intro hv
    show dictGet (combine_dictionaries [some c.headers, some rq.headers]) k
      = dictGet c.headers k
    rw [dictGet_combine_two _ _ _ hch hrh, hv]

/-- The example dispatcher of the C9 witness: default params hold `p` and
`q`; the request overrides `p`. -/
def clientC9 : Client :=
  { base_url := "https://api.example.com",
    headers := [("content_type", "application/json")],
    params := [("p", "1"), ("q", "2")], max_parallel_requests := 10 }

/-- The example request of the C9 witness. -/
def requestC9 : ClientRequest :=
  { path := "v1/items", base_url := none, headers := [],
    params := [("p", "9")], method := "GET", body := none }

/-- Witness for claim C9 at the key `p`, overridden by the request. -/
theorem claim_C9_witness :
    (clientC9.params.map Prod.fst).Nodup ∧
    dictGet requestC9.params "p" = some "9" ∧
    dictGet (clientC9.invoke_request requestC9).params "p" = some "9" :=
  ⟨by decide, by decide,
    (claim_C9 clientC9 requestC9 "p" (by decide) (by decide) (by decide)
      (by decide)).2.2.1 "9" (by decide)⟩

/-! ### Claim C10: admission mutates the submitted request -/

/-- Claim C10: admitting a request mutates the submitted object in place:
its `base_url` is set to the client's base url when it was `None`, and its
`params` and `headers` are rebound to freshly merged dicts; resubmitting the
same object to a second client keeps the first client's base url, because
`request.base_url or self.base_url` now finds it already set. -/
theorem claim_C10 (c1 c2 : Client) (rq : ClientRequest)
    (hb : rq.base_url = none) (h1 : c1.base_url ≠ "") :
    ((c1.invoke_request rq).base_url = some c1.base_url) ∧
    ((c1.invoke_request rq).params
        = combine_dictionaries [some c1.params, some rq.params]) ∧
    ((c1.invoke_request rq).headers
        = combine_dictionaries [some c1.headers, some rq.headers]) ∧
    ((c2.invoke_request (c1.invoke_request rq)).base_url = some c1.base_url) := by
  have e1 : (c1.invoke_request rq).base_url = some c1.base_url := by
    simp [Client.invoke_request, pyOrStr, hb]
  refine ⟨e1, rfl, rfl, ?_⟩
  show pyOrStr (c1.invoke_request rq).base_url (some c2.base_url)
    = some c1.base_url
  rw [e1]
  simp [pyOrStr, h1]

/-- The first dispatcher of the C10 witness. -/
def clientC10a : Client :=
  { base_url := "https://a.example.com", headers := [], params := [],
    max_parallel_requests := 10 }

/-- The second dispatcher of the C10 witness, with a different base url. -/
def clientC10b : Client :=
  { base_url := "https://b.example.com", headers := [], params := [],
    max_parallel_requests := 10 }

/-- The request of the C10 witness, submitted without a base url. -/
def requestC10 : ClientRequest :=
  { path := "v1/items", base_url := none, headers := [], params := [],
    method := "GET", body := none }

/-- Witness for claim C10: after admission by the first client, resubmission
to the second client still carries the first client's base url. -/
theorem claim_C10_witness :
    requestC10.base_url = none ∧
    clientC10a.base_url ≠ "" ∧
    (clientC10b.invoke_request (clientC10a.invoke_request requestC10)).base_url
      = some clientC10a.base_url :=
  ⟨by decide, by decide,
    (claim_C10 clientC10a clientC10b requestC10 (by decide) (by decide)).2.2.2⟩

end FilebaseApi
